import Mathlib

/-!
# ClockOR — verification of the overlay/config core

Shallow embedding of the ClockOR overlay clock (Rust, `src/config.rs`,
`src/overlay.rs`, `src/settings.rs`) together with proofs about its
configuration model, geometry engine, transparency compositor and hotkey
codec.

Modelling conventions:
* Rust `u32`/`u8` values become `Nat`; `i32` monitor/window coordinates
  become `Int` (the claims under study are about values far below the
  `i32` range, where two's-complement wrapping never engages).
* The two floating-point casts in the source are embedded by the exact
  integer functions they compute on their whole relevant domains (each
  equality was checked exhaustively against IEEE-754 binary32 semantics;
  the bound is noted at the definition).
* File input and the textual TOML grammar are external to the repository;
  the outcome of reading/parsing is modelled abstractly by `LoadSource`,
  while everything serde-level (field decoding, per-field defaults, the
  legacy font-size union) is embedded from the repository's own code and
  derive attributes in `src/config.rs`.
-/

namespace ClockOR

/-- `Position` enum from `src/config.rs` (serde kebab-case names). -/
inductive Position
  | topRight
  | topLeft
  | bottomRight
  | bottomLeft
deriving DecidableEq, Repr

/-- `TextStyle` enum from `src/config.rs` (default `Outline`). -/
inductive TextStyle
  | none
  | outline
  | shadow
deriving DecidableEq, Repr

/-- The `Config` struct from `src/config.rs`. Strings are `List Char`,
`u32`/`u8` are `Nat`, `[u8; 3]` colors are triples. -/
structure Config where
  position : Position
  format_24h : Bool
  show_seconds : Bool
  font_size : Nat
  opacity : Nat
  hotkey : List Char
  start_with_windows : Bool
  text_style : TextStyle
  text_color : Nat × Nat × Nat
  outline_color : Nat × Nat × Nat
deriving DecidableEq, Repr

/-- `Config::default()` from `src/config.rs`. -/
def Config.default : Config where
  position := Position.topRight
  format_24h := true
  show_seconds := false
  font_size := 22
  opacity := 80
  hotkey := "Ctrl+F12".toList
  start_with_windows := false
  text_style := TextStyle.outline
  text_color := (255, 255, 255)
  outline_color := (0, 0, 0)

/-- `COLOR_KEY` from `src/overlay.rs`: COLORREF `0x00010001`, RGB(1,0,1). -/
def COLOR_KEY : Nat := 0x00010001

/-- `guard_color_key` from `src/overlay.rs`: if a COLORREF matches
`COLOR_KEY`, flip the low bit of the blue channel (bit 16). -/
def guard_color_key (cr : Nat) : Nat :=
  if cr = COLOR_KEY then cr ^^^ 0x00010000 else cr

/-- The alpha computation `(opacity as f32 / 100.0 * 255.0) as u8`, shared
verbatim by `Overlay::new`, `Overlay::show` and the `WM_TIMER` handler in
`src/overlay.rs`.  For every `opacity < 256` (the whole `u8` domain) the
IEEE-754 binary32 evaluation followed by Rust's saturating truncating
float-to-`u8` cast equals this integer function; the equality was checked
exhaustively over all 256 inputs. -/
def alpha_of_opacity (opacity : Nat) : Nat :=
  min (opacity * 255 / 100) 255

/-- The spec's claimed alpha: `round(opacity / 100 × 255)` as an exact
rational rounded to the nearest integer. -/
def round_alpha (opacity : Nat) : Int :=
  round (((opacity : ℚ) * 255) / 100)

/-- The character-width heuristic `(font_px as f32 * 0.6) as i32` from
`calc_window_rect` in `src/overlay.rs`.  For every `font_px ≤ 100000`
(far beyond the clamped range `[10, 60]`) the binary32 evaluation and
truncating cast equal this integer function; checked exhaustively. -/
def char_width (font_px : Nat) : Nat :=
  3 * font_px / 5

/-- The visible character count match in `calc_window_rect`
(`src/overlay.rs`): `(format_24h, show_seconds)` to char count. -/
def text_chars (format_24h show_seconds : Bool) : Nat :=
  match format_24h, show_seconds with
  | true, true => 8
  | true, false => 5
  | false, true => 11
  | false, false => 8

/-- The outline/shadow width padding in `calc_window_rect`. -/
def style_pad : TextStyle → Nat
  | TextStyle.outline => 4
  | TextStyle.shadow => 4
  | TextStyle.none => 0

/-- `calc_window_rect` from `src/overlay.rs`.  Takes the monitor rect
`(mon_x, mon_y, mon_w, mon_h)` and returns `(x, y, win_w, win_h)`. -/
def calc_window_rect (config : Config) (monitor : Int × Int × Int × Int) :
    Int × Int × Int × Int :=
  let mon_x := monitor.1
  let mon_y := monitor.2.1
  let mon_w := monitor.2.2.1
  let mon_h := monitor.2.2.2
  let font_px : Int := (config.font_size : Int)
  let char_w : Int := (char_width config.font_size : Int)
  let text_w : Int := char_w * (text_chars config.format_24h config.show_seconds : Int)
  let pad : Int := (style_pad config.text_style : Int)
  let win_w : Int := text_w + 24 + pad
  let win_h : Int := font_px + 16
  let margin : Int := 10
  let xy : Int × Int :=
    match config.position with
    | Position.topRight => (mon_x + mon_w - win_w - margin, mon_y + margin)
    | Position.topLeft => (mon_x + margin, mon_y + margin)
    | Position.bottomRight =>
        (mon_x + mon_w - win_w - margin, mon_y + mon_h - win_h - margin)
    | Position.bottomLeft => (mon_x + margin, mon_y + mon_h - win_h - margin)
  (xy.1, xy.2, win_w, win_h)

/-! ## Hotkey codec (`src/config.rs`, `src/settings.rs`) -/

/-- Rust `char::is_whitespace` (the Unicode White_Space property), used by
`str::trim` inside `parse_hotkey`. -/
def rust_is_whitespace (c : Char) : Bool :=
  c = '\u0009' || c = '\u000A' || c = '\u000B' || c = '\u000C' || c = '\u000D' ||
  c = ' ' || c = '\u0085' || c = '\u00A0' || c = '\u1680' ||
  c = '\u2000' || c = '\u2001' || c = '\u2002' || c = '\u2003' || c = '\u2004' ||
  c = '\u2005' || c = '\u2006' || c = '\u2007' || c = '\u2008' || c = '\u2009' ||
  c = '\u200A' || c = '\u2028' || c = '\u2029' || c = '\u202F' || c = '\u205F' ||
  c = '\u3000'

/-- Rust `str::trim`: strip whitespace from both ends. -/
def trim_chars (s : List Char) : List Char :=
  ((s.dropWhile rust_is_whitespace).reverse.dropWhile rust_is_whitespace).reverse

/-- ASCII lowercasing of one character (Rust `u8::to_ascii_lowercase`). -/
def ascii_lower (c : Char) : Char :=
  if 'A' ≤ c ∧ c ≤ 'Z' then Char.ofNat (c.toNat + 32) else c

/-- Rust `str::eq_ignore_ascii_case`. -/
def eq_ignore_ascii_case (a b : List Char) : Bool :=
  a.map ascii_lower = b.map ascii_lower

/-- Rust `str::split('+')`: split at every separator, keeping empty pieces;
the result is always nonempty. -/
def split_plus : List Char → List (List Char)
  | [] => [[]]
  | c :: rest =>
    if c = '+' then [] :: split_plus rest
    else
      match split_plus rest with
      | [] => [[c]]
      | p :: ps => (c :: p) :: ps

/-- Rust `[&str]::join("+")` as used on the modifier tokens. -/
def join_plus : List (List Char) → List Char
  | [] => []
  | [p] => p
  | p :: ps => p ++ '+' :: join_plus ps

/-- `MOD_CONTROL`, `MOD_ALT`, `MOD_SHIFT` from the Win32 bindings. -/
def MOD_CONTROL : Nat := 0x2
def MOD_ALT : Nat := 0x1
def MOD_SHIFT : Nat := 0x4

/-- `MODIFIER_OPTIONS` table from `src/config.rs`. -/
def MODIFIER_OPTIONS : List (List Char × Nat) :=
  [("Ctrl".toList, MOD_CONTROL),
   ("Alt".toList, MOD_ALT),
   ("Shift".toList, MOD_SHIFT),
   ("Ctrl+Alt".toList, MOD_CONTROL ||| MOD_ALT),
   ("Ctrl+Shift".toList, MOD_CONTROL ||| MOD_SHIFT),
   ("Alt+Shift".toList, MOD_ALT ||| MOD_SHIFT)]

/-- `KEY_OPTIONS` table from `src/config.rs` (`VK_F1 = 0x70` … `VK_F12 = 0x7B`). -/
def KEY_OPTIONS : List (List Char × Nat) :=
  [("F1".toList, 0x70), ("F2".toList, 0x71), ("F3".toList, 0x72),
   ("F4".toList, 0x73), ("F5".toList, 0x74), ("F6".toList, 0x75),
   ("F7".toList, 0x76), ("F8".toList, 0x77), ("F9".toList, 0x78),
   ("F10".toList, 0x79), ("F11".toList, 0x7A), ("F12".toList, 0x7B)]

/-- Case-insensitive table lookup, as done with
`table.iter().find(|(name, _)| name.eq_ignore_ascii_case(tok))`. -/
def lookup_ci (table : List (List Char × Nat)) (tok : List Char) : Option Nat :=
  (table.find? fun e => eq_ignore_ascii_case e.1 tok).map (fun e => e.2)

/-- `parse_hotkey` from `src/config.rs`: split on `'+'`, trim every token;
fewer than two tokens fails; the last token must match `KEY_OPTIONS`
case-insensitively and the preceding tokens, rejoined with `'+'`, must match
`MODIFIER_OPTIONS` case-insensitively. -/
def parse_hotkey (hotkey : List Char) : Option (Nat × Nat) :=
  let parts := (split_plus hotkey).map trim_chars
  if parts.length < 2 then none
  else
    match parts.getLast? with
    | none => none
    | some key_name =>
      match lookup_ci KEY_OPTIONS key_name with
      | none => none
      | some vk =>
        match lookup_ci MODIFIER_OPTIONS (join_plus parts.dropLast) with
        | none => none
        | some modifiers => some (modifiers, vk)

/-- `SettingsApp::build_hotkey_string` from `src/settings.rs`:
`format!("{mod_name}+{key_name}")`. -/
def build_hotkey_string (mod_name key_name : List Char) : List Char :=
  mod_name ++ '+' :: key_name

/-! ## Config loading (`src/config.rs`)

`Config::load_from` reads the file (`fs::read_to_string`) and runs
`toml::from_str::<Config>`.  The byte-level read and the textual TOML
grammar live outside the repository; their outcome is modelled by
`LoadSource` (`unreadable` / `unparsable` / a parsed key-value document).
The serde-level decoding of a parsed document into `Config` — field
decoders, the `#[serde(default)]` per-field defaults, and
`deserialize_font_size` — is repository code and is embedded below. -/

/-- A parsed TOML value (the fragment the `Config` schema can mention). -/
inductive TomlValue
  | int (n : Int)
  | str (s : List Char)
  | bool (b : Bool)
  | arr (vs : List TomlValue)

/-- Outcome of `fs::read_to_string` + the textual TOML parse (both external
to the repository): the file was unreadable, the text was not valid TOML,
or it parsed to a top-level key → value table. -/
inductive LoadSource
  | unreadable
  | unparsable
  | parsed (doc : List (String × TomlValue))

/-- serde decoding of `Position` (kebab-case variant names). -/
def decode_position : TomlValue → Option Position
  | TomlValue.str s =>
    if s = "top-right".toList then some Position.topRight
    else if s = "top-left".toList then some Position.topLeft
    else if s = "bottom-right".toList then some Position.bottomRight
    else if s = "bottom-left".toList then some Position.bottomLeft
    else none
  | _ => none

/-- serde decoding of `TextStyle` (kebab-case variant names). -/
def decode_text_style : TomlValue → Option TextStyle
  | TomlValue.str s =>
    if s = "none".toList then some TextStyle.none
    else if s = "outline".toList then some TextStyle.outline
    else if s = "shadow".toList then some TextStyle.shadow
    else none
  | _ => none

/-- serde decoding of a `bool` field. -/
def decode_bool : TomlValue → Option Bool
  | TomlValue.bool b => some b
  | _ => none

/-- serde decoding of a `u8` field (TOML integers are `i64`; out-of-range
values fail). -/
def decode_u8 : TomlValue → Option Nat
  | TomlValue.int n => if 0 ≤ n ∧ n < 256 then some n.toNat else none
  | _ => none

/-- serde decoding of a `String` field. -/
def decode_string : TomlValue → Option (List Char)
  | TomlValue.str s => some s
  | _ => none

/-- serde decoding of a `[u8; 3]` field (exactly three in-range integers). -/
def decode_color : TomlValue → Option (Nat × Nat × Nat)
  | TomlValue.arr [TomlValue.int r, TomlValue.int g, TomlValue.int b] =>
    if 0 ≤ r ∧ r < 256 ∧ 0 ≤ g ∧ g < 256 ∧ 0 ≤ b ∧ b < 256 then
      some (r.toNat, g.toNat, b.toNat)
    else none
  | _ => none

/-- `deserialize_font_size` from `src/config.rs`: an untagged union of a
`u32` number and the legacy strings `"small"`/`"medium"`/`"large"`
(16/22/30); any other value is a deserialization error. -/
def deserialize_font_size : TomlValue → Option Nat
  | TomlValue.int n => if 0 ≤ n ∧ n < 2 ^ 32 then some n.toNat else none
  | TomlValue.str s =>
    if s = "small".toList then some 16
    else if s = "medium".toList then some 22
    else if s = "large".toList then some 30
    else none
  | _ => none

/-- One field under `#[serde(default)]`: a missing key takes the default,
a present key must decode or the whole document is rejected. -/
def decodeField {α : Type} (doc : List (String × TomlValue)) (key : String)
    (dec : TomlValue → Option α) (dflt : α) : Option α :=
  match List.lookup key doc with
  | none => some dflt
  | some v => dec v

/-- serde decoding of the whole `Config` struct (`#[serde(default)]`, with
`deserialize_font_size` on `font_size` and explicit color defaults). -/
def decodeConfig (doc : List (String × TomlValue)) : Option Config :=
  (decodeField doc "position" decode_position Config.default.position).bind fun position =>
  (decodeField doc "format_24h" decode_bool Config.default.format_24h).bind fun format_24h =>
  (decodeField doc "show_seconds" decode_bool Config.default.show_seconds).bind fun show_seconds =>
  (decodeField doc "font_size" deserialize_font_size Config.default.font_size).bind fun font_size =>
  (decodeField doc "opacity" decode_u8 Config.default.opacity).bind fun opacity =>
  (decodeField doc "hotkey" decode_string Config.default.hotkey).bind fun hotkey =>
  (decodeField doc "start_with_windows" decode_bool Config.default.start_with_windows).bind fun start_with_windows =>
  (decodeField doc "text_style" decode_text_style Config.default.text_style).bind fun text_style =>
  (decodeField doc "text_color" decode_color Config.default.text_color).bind fun text_color =>
  (decodeField doc "outline_color" decode_color Config.default.outline_color).bind fun outline_color =>
  some ⟨position, format_24h, show_seconds, font_size, opacity, hotkey,
        start_with_windows, text_style, text_color, outline_color⟩

/-- Rust `Ord::clamp` on the numeric config fields. -/
def clampNat (x lo hi : Nat) : Nat :=
  if x < lo then lo else if x > hi then hi else x

/-- `Config::load_from` from `src/config.rs`: unreadable file or failed
parse/decode gives `Config::default()` (`unwrap_or_default`), then
`opacity` is clamped to `[25, 100]` and `font_size` to `[10, 60]`. -/
def load_from (source : LoadSource) : Config :=
  let config : Config :=
    match source with
    | LoadSource.unreadable => Config.default
    | LoadSource.unparsable => Config.default
    | LoadSource.parsed doc => (decodeConfig doc).getD Config.default
  { config with
    opacity := clampNat config.opacity 25 100
    font_size := clampNat config.font_size 10 60 }

/-! ## Helper lemmas -/

theorem clampNat_mem (x lo hi : Nat) (h : lo ≤ hi) :
    lo ≤ clampNat x lo hi ∧ clampNat x lo hi ≤ hi := by
  unfold clampNat; split_ifs <;> omega

theorem char_width_mono {a b : Nat} (h : a ≤ b) : char_width a ≤ char_width b := by
  unfold char_width; omega

theorem char_width_strict {a b : Nat} (h : a + 2 ≤ b) : char_width a < char_width b := by
  unfold char_width; omega

theorem calc_w_mk (pos : Position) (f24 ss : Bool) (fs op : Nat) (hk : List Char)
    (sw : Bool) (ts : TextStyle) (tc oc : Nat × Nat × Nat)
    (monitor : Int × Int × Int × Int) :
    (calc_window_rect (Config.mk pos f24 ss fs op hk sw ts tc oc) monitor).2.2.1 =
      (char_width fs : Int) * (text_chars f24 ss : Int) + 24 + (style_pad ts : Int) := rfl

theorem calc_h_mk (pos : Position) (f24 ss : Bool) (fs op : Nat) (hk : List Char)
    (sw : Bool) (ts : TextStyle) (tc oc : Nat × Nat × Nat)
    (monitor : Int × Int × Int × Int) :
    (calc_window_rect (Config.mk pos f24 ss fs op hk sw ts tc oc) monitor).2.2.2 =
      (fs : Int) + 16 := rfl

/-! ## Claim theorems -/

/-- C8: `guard_color_key` never returns the reserved key color
`0x00010001` (RGB(1,0,1)); on any other 32-bit color it is the identity;
on the key color itself the result differs from the key color exactly by
one flipped bit, bit 16, the low bit of the blue channel. -/
theorem C8_guard_color_key :
    (∀ c : Nat, c < 2 ^ 32 → guard_color_key c ≠ COLOR_KEY) ∧
    (∀ c : Nat, c ≠ COLOR_KEY → guard_color_key c = c) ∧
    guard_color_key COLOR_KEY ^^^ COLOR_KEY = 0x00010000 := by
  refine ⟨?_, ?_, by decide⟩
  · intro c _
    by_cases h : c = COLOR_KEY
    · subst h; decide
    · simp [guard_color_key, h]
  · intro c h
    simp [guard_color_key, h]

/-- Witness for C8 at concrete colors: the key color is perturbed, a
normal color (white) passes through unchanged. -/
theorem C8_guard_color_key_witness :
    (0x00010001 < 2 ^ 32 ∧ guard_color_key 0x00010001 ≠ COLOR_KEY) ∧
    (0x00FFFFFF ≠ COLOR_KEY ∧ guard_color_key 0x00FFFFFF = 0x00FFFFFF) :=
  ⟨⟨by decide, C8_guard_color_key.1 0x00010001 (by decide)⟩,
   ⟨by decide, C8_guard_color_key.2.1 0x00FFFFFF (by decide)⟩⟩

/-- C10: `guard_color_key` is idempotent on every 32-bit color value. -/
theorem C10_guard_color_key_idempotent :
    ∀ c : Nat, c < 2 ^ 32 →
      guard_color_key (guard_color_key c) = guard_color_key c := by
  intro c _
  by_cases h : c = COLOR_KEY
  · subst h; decide
  · simp [guard_color_key, h]

/-- Witness for C10 at the key color itself. -/
theorem C10_guard_color_key_idempotent_witness :
    COLOR_KEY < 2 ^ 32 ∧
      guard_color_key (guard_color_key COLOR_KEY) = guard_color_key COLOR_KEY :=
  ⟨by decide, C10_guard_color_key_idempotent COLOR_KEY (by decide)⟩

/-- C2 counterexample: the code truncates (`as u8`), it does not round.
At opacity 27 the exact value is 68.85: the code's alpha is 68, while
`round(27 / 100 × 255) = 69`. -/
theorem C2_alpha_not_round_counterexample :
    alpha_of_opacity 27 = 68 ∧ round_alpha 27 = 69 ∧
    (alpha_of_opacity 27 : Int) ≠ round_alpha 27 := by
  refine ⟨by decide, ?_, ?_⟩ <;>
    norm_num [round_alpha, round_eq, alpha_of_opacity]

/-- C2 amended: for every clamped opacity (≤ 100) the window-wide alpha
equals `⌊opacity / 100 × 255⌋` — the floor of the exact rational value,
not its rounding — and always fits in a byte. -/
theorem C2_alpha_is_floor (opacity : Nat) (h : opacity ≤ 100) :
    (alpha_of_opacity opacity : Int) = ⌊((opacity : ℚ) * 255) / 100⌋ ∧
    alpha_of_opacity opacity ≤ 255 := by
  have h1 : alpha_of_opacity opacity = opacity * 255 / 100 := by
    unfold alpha_of_opacity; omega
  constructor
  · rw [h1,
        show ((opacity : ℚ) * 255) = (((opacity * 255 : Nat) : Int) : ℚ) by push_cast; ring,
        show (100 : ℚ) = (((100 : Nat)) : ℚ) by norm_num,
        Rat.floor_intCast_div_natCast]
    omega
  · unfold alpha_of_opacity; omega

/-- Witness for C2 amended at opacity 80 (the default). -/
theorem C2_alpha_is_floor_witness :
    (80 : Nat) ≤ 100 ∧
      ((alpha_of_opacity 80 : Int) = ⌊(((80 : Nat) : ℚ) * 255) / 100⌋ ∧
        alpha_of_opacity 80 ≤ 255) :=
  ⟨by decide, C2_alpha_is_floor 80 (by decide)⟩

/-- C3 counterexample: at font sizes 10 and 11 (both in `[10, 60]`, all
other fields at default, monitor 1920×1080) the computed widths are equal
(both 58), so width is not strictly monotone in font size. -/
theorem C3_width_not_strict_counterexample :
    10 ≤ 10 ∧ 10 < 11 ∧ 11 ≤ 60 ∧
    (calc_window_rect { Config.default with font_size := 10 } (0, 0, 1920, 1080)).2.2.1 =
      (calc_window_rect { Config.default with font_size := 11 } (0, 0, 1920, 1080)).2.2.1 := by
  decide

/-- C3 amended: for font sizes `a < b` in `[10, 60]` with all other config
fields and the monitor held equal, the computed height is strictly larger
at `b`; the width is monotone (never smaller), and strictly larger as soon
as `b ≥ a + 2` (the `0.6 × font` character-width heuristic truncates, so
two consecutive font sizes can share a width). -/
theorem C3_font_size_monotone (pos : Position) (f24 ss : Bool) (op : Nat)
    (hk : List Char) (sw : Bool) (ts : TextStyle) (tc oc : Nat × Nat × Nat)
    (a b : Nat) (h10 : 10 ≤ a) (hab : a < b) (h60 : b ≤ 60)
    (monitor : Int × Int × Int × Int) :
    (calc_window_rect (Config.mk pos f24 ss a op hk sw ts tc oc) monitor).2.2.2 <
      (calc_window_rect (Config.mk pos f24 ss b op hk sw ts tc oc) monitor).2.2.2 ∧
    (calc_window_rect (Config.mk pos f24 ss a op hk sw ts tc oc) monitor).2.2.1 ≤
      (calc_window_rect (Config.mk pos f24 ss b op hk sw ts tc oc) monitor).2.2.1 ∧
    (a + 2 ≤ b →
      (calc_window_rect (Config.mk pos f24 ss a op hk sw ts tc oc) monitor).2.2.1 <
        (calc_window_rect (Config.mk pos f24 ss b op hk sw ts tc oc) monitor).2.2.1) := by
  rw [calc_w_mk, calc_w_mk, calc_h_mk, calc_h_mk]
  cases f24 <;> cases ss <;> simp only [text_chars] <;>
    exact ⟨by omega,
           by have := char_width_mono (Nat.le_of_lt hab); omega,
           fun h2 => by have := char_width_strict h2; omega⟩

/-- Witness for C3 amended at font sizes 16 and 30 on the default config
shape. -/
theorem C3_font_size_monotone_witness :
    (10 ≤ 16 ∧ 16 < 30 ∧ 30 ≤ 60) ∧
    ((calc_window_rect { Config.default with font_size := 16 } (0, 0, 1920, 1080)).2.2.2 <
      (calc_window_rect { Config.default with font_size := 30 } (0, 0, 1920, 1080)).2.2.2 ∧
    (calc_window_rect { Config.default with font_size := 16 } (0, 0, 1920, 1080)).2.2.1 ≤
      (calc_window_rect { Config.default with font_size := 30 } (0, 0, 1920, 1080)).2.2.1 ∧
    (16 + 2 ≤ 30 →
      (calc_window_rect { Config.default with font_size := 16 } (0, 0, 1920, 1080)).2.2.1 <
        (calc_window_rect { Config.default with font_size := 30 } (0, 0, 1920, 1080)).2.2.1)) :=
  ⟨⟨by decide, by decide, by decide⟩,
   C3_font_size_monotone Position.topRight true false 80 "Ctrl+F12".toList false
     TextStyle.outline (255, 255, 255) (0, 0, 0) 16 30 (by decide) (by decide) (by decide)
     (0, 0, 1920, 1080)⟩

/-- C4 counterexample: containment in the monitor fails for a monitor that
is smaller than the window: on a 10×10 monitor at the origin, the default
config's window (width 93) is anchored at x = −93, left of the monitor. -/
theorem C4_containment_counterexample :
    (calc_window_rect Config.default (0, 0, 10, 10)).1 < 0 ∧
    (calc_window_rect Config.default (0, 0, 10, 10)).2.2.1 = 93 := by
  decide

/-- C4 amended: for every config and monitor rect, `calc_window_rect`
anchors the window to the corner named by `position` with exactly a
10-pixel margin from the two corresponding monitor edges (TopRight at
`x = monitorRight − width − 10`, `y = monitorTop + 10`; the other three
mirror); the rect lies entirely within the monitor bounds whenever the
monitor is at least 20 pixels wider and taller than the window (which a
tiny monitor can violate). -/
theorem C4_corner_anchoring (config : Config) (monitor : Int × Int × Int × Int) :
    (config.position = Position.topRight →
      (calc_window_rect config monitor).1 =
        monitor.1 + monitor.2.2.1 - (calc_window_rect config monitor).2.2.1 - 10 ∧
      (calc_window_rect config monitor).2.1 = monitor.2.1 + 10) ∧
    (config.position = Position.topLeft →
      (calc_window_rect config monitor).1 = monitor.1 + 10 ∧
      (calc_window_rect config monitor).2.1 = monitor.2.1 + 10) ∧
    (config.position = Position.bottomRight →
      (calc_window_rect config monitor).1 =
        monitor.1 + monitor.2.2.1 - (calc_window_rect config monitor).2.2.1 - 10 ∧
      (calc_window_rect config monitor).2.1 =
        monitor.2.1 + monitor.2.2.2 - (calc_window_rect config monitor).2.2.2 - 10) ∧
    (config.position = Position.bottomLeft →
      (calc_window_rect config monitor).1 = monitor.1 + 10 ∧
      (calc_window_rect config monitor).2.1 =
        monitor.2.1 + monitor.2.2.2 - (calc_window_rect config monitor).2.2.2 - 10) ∧
    ((calc_window_rect config monitor).2.2.1 + 20 ≤ monitor.2.2.1 →
      (calc_window_rect config monitor).2.2.2 + 20 ≤ monitor.2.2.2 →
      monitor.1 ≤ (calc_window_rect config monitor).1 ∧
      (calc_window_rect config monitor).1 + (calc_window_rect config monitor).2.2.1 ≤
        monitor.1 + monitor.2.2.1 ∧
      monitor.2.1 ≤ (calc_window_rect config monitor).2.1 ∧
      (calc_window_rect config monitor).2.1 + (calc_window_rect config monitor).2.2.2 ≤
        monitor.2.1 + monitor.2.2.2) := by
  obtain ⟨pos, f24, ss, fs, op, hk, sw, ts, tc, oc⟩ := config
  cases pos with
  | topRight =>
    refine ⟨fun _ => ⟨rfl, rfl⟩, fun h => Position.noConfusion h, fun h => Position.noConfusion h,
      fun h => Position.noConfusion h, fun hw hh => ?_⟩
    simp only [calc_window_rect] at hw hh ⊢
    omega
  | topLeft =>
    refine ⟨fun h => Position.noConfusion h, fun _ => ⟨rfl, rfl⟩, fun h => Position.noConfusion h,
      fun h => Position.noConfusion h, fun hw hh => ?_⟩
    simp only [calc_window_rect] at hw hh ⊢
    omega
  | bottomRight =>
    refine ⟨fun h => Position.noConfusion h, fun h => Position.noConfusion h, fun _ => ⟨rfl, rfl⟩,
      fun h => Position.noConfusion h, fun hw hh => ?_⟩
    simp only [calc_window_rect] at hw hh ⊢
    omega
  | bottomLeft =>
    refine ⟨fun h => Position.noConfusion h, fun h => Position.noConfusion h, fun h => Position.noConfusion h,
      fun _ => ⟨rfl, rfl⟩, fun hw hh => ?_⟩
    simp only [calc_window_rect] at hw hh ⊢
    omega

/-- Witness for C4 amended: the default config (TopRight) on the primary
1920×1080 monitor is anchored at (1817, 10) and lies inside the monitor. -/
theorem C4_corner_anchoring_witness :
    (Config.default.position = Position.topRight →
      (calc_window_rect Config.default (0, 0, 1920, 1080)).1 =
        0 + 1920 - (calc_window_rect Config.default (0, 0, 1920, 1080)).2.2.1 - 10 ∧
      (calc_window_rect Config.default (0, 0, 1920, 1080)).2.1 = 0 + 10) ∧
    (0 ≤ (calc_window_rect Config.default (0, 0, 1920, 1080)).1 ∧
      (calc_window_rect Config.default (0, 0, 1920, 1080)).1 +
        (calc_window_rect Config.default (0, 0, 1920, 1080)).2.2.1 ≤ 0 + 1920 ∧
      0 ≤ (calc_window_rect Config.default (0, 0, 1920, 1080)).2.1 ∧
      (calc_window_rect Config.default (0, 0, 1920, 1080)).2.1 +
        (calc_window_rect Config.default (0, 0, 1920, 1080)).2.2.2 ≤ 0 + 1080) :=
  ⟨(C4_corner_anchoring Config.default (0, 0, 1920, 1080)).1,
   (C4_corner_anchoring Config.default (0, 0, 1920, 1080)).2.2.2.2
     (by decide) (by decide)⟩

/-- C5 counterexample: with font size 1 (legal for the raw struct, below
the loader's clamp range) the character width truncates to 0, so turning
seconds on does not change the width: both are 28. -/
theorem C5_width_counterexample :
    (calc_window_rect { Config.default with font_size := 1, show_seconds := true }
        (0, 0, 1920, 1080)).2.2.1 =
      (calc_window_rect { Config.default with font_size := 1, show_seconds := false }
        (0, 0, 1920, 1080)).2.2.1 ∧
    (calc_window_rect { Config.default with font_size := 1, show_seconds := true }
        (0, 0, 1920, 1080)).2.2.1 = 28 := by
  decide

/-- C5 amended: the character count is (24h, sec) → 8, (24h, no sec) → 5,
(12h, sec) → 11, (12h, no sec) → 8; and whenever the font size is at least
2 (in particular throughout the clamped range `[10, 60]`), with all other
fields equal the width is strictly larger with seconds shown than hidden,
and strictly larger in 12-hour format than in 24-hour format. -/
theorem C5_char_count_width (pos : Position) (f24 ss : Bool) (fs op : Nat)
    (hk : List Char) (sw : Bool) (ts : TextStyle) (tc oc : Nat × Nat × Nat)
    (hfs : 2 ≤ fs) (monitor : Int × Int × Int × Int) :
    (text_chars true true = 8 ∧ text_chars true false = 5 ∧
      text_chars false true = 11 ∧ text_chars false false = 8) ∧
    (calc_window_rect (Config.mk pos f24 false fs op hk sw ts tc oc) monitor).2.2.1 <
      (calc_window_rect (Config.mk pos f24 true fs op hk sw ts tc oc) monitor).2.2.1 ∧
    (calc_window_rect (Config.mk pos true ss fs op hk sw ts tc oc) monitor).2.2.1 <
      (calc_window_rect (Config.mk pos false ss fs op hk sw ts tc oc) monitor).2.2.1 := by
  have hcw : 1 ≤ char_width fs := by unfold char_width; omega
  refine ⟨⟨rfl, rfl, rfl, rfl⟩, ?_, ?_⟩ <;>
    rw [calc_w_mk, calc_w_mk] <;>
    cases f24 <;> cases ss <;> simp only [text_chars] <;> omega

/-- Witness for C5 amended at the default config shape (font size 22). -/
theorem C5_char_count_width_witness :
    (2 : Nat) ≤ 22 ∧
    (calc_window_rect { Config.default with show_seconds := false }
        (0, 0, 1920, 1080)).2.2.1 <
      (calc_window_rect { Config.default with show_seconds := true }
        (0, 0, 1920, 1080)).2.2.1 :=
  ⟨by decide,
   (C5_char_count_width Position.topRight true false 22 80 "Ctrl+F12".toList false
     TextStyle.outline (255, 255, 255) (0, 0, 0) (by decide) (0, 0, 1920, 1080)).2.1⟩

theorem clampNat_below (x lo hi : Nat) (h : x < lo) : clampNat x lo hi = lo := by
  unfold clampNat; split_ifs <;> omega

theorem clampNat_above (x lo hi : Nat) (hlo : lo ≤ hi) (h : hi < x) :
    clampNat x lo hi = hi := by
  unfold clampNat; split_ifs <;> omega

theorem clampNat_id (x lo hi : Nat) (h1 : lo ≤ x) (h2 : x ≤ hi) :
    clampNat x lo hi = x := by
  unfold clampNat; split_ifs <;> omega

theorem decodeField_of_lookup_none {α : Type} (doc : List (String × TomlValue))
    (key : String) (dec : TomlValue → Option α) (dflt : α)
    (h : List.lookup key doc = none) : decodeField doc key dec dflt = some dflt := by
  unfold decodeField; rw [h]

theorem load_from_parsed_eq (doc : List (String × TomlValue)) :
    load_from (LoadSource.parsed doc) =
      { (decodeConfig doc).getD Config.default with
        opacity := clampNat ((decodeConfig doc).getD Config.default).opacity 25 100
        font_size := clampNat ((decodeConfig doc).getD Config.default).font_size 10 60 } :=
  rfl

theorem load_from_parsed_none (doc : List (String × TomlValue))
    (h : decodeConfig doc = none) :
    load_from (LoadSource.parsed doc) = Config.default := by
  rw [load_from_parsed_eq, h]
  rfl

theorem load_from_clamped (source : LoadSource) :
    ∃ c : Config, (load_from source).font_size = clampNat c.font_size 10 60 ∧
      (load_from source).opacity = clampNat c.opacity 25 100 := by
  cases source
  · exact ⟨Config.default, rfl, rfl⟩
  · exact ⟨Config.default, rfl, rfl⟩
  · exact ⟨_, rfl, rfl⟩

/-- C1: config loading fails safe.  Every load result satisfies the
clamped invariants `10 ≤ font_size ≤ 60` and `25 ≤ opacity ≤ 100`; an
unreadable or unparsable source yields `Config::default()`; a document
that fails serde decoding yields `Config::default()`; fields missing from
an otherwise-valid document take their per-field defaults; and
out-of-range numeric values are clamped to the nearest bound.  (Totality
over arbitrary byte content is structural: `load_from` is a total
function of the read/parse outcome.) -/
theorem C1_load_fails_safe :
    (∀ source : LoadSource,
      10 ≤ (load_from source).font_size ∧ (load_from source).font_size ≤ 60 ∧
      25 ≤ (load_from source).opacity ∧ (load_from source).opacity ≤ 100) ∧
    load_from LoadSource.unreadable = Config.default ∧
    load_from LoadSource.unparsable = Config.default ∧
    (∀ doc, decodeConfig doc = none →
      load_from (LoadSource.parsed doc) = Config.default) ∧
    (∀ doc cfg, decodeConfig doc = some cfg →
      (List.lookup "position" doc = none → cfg.position = Config.default.position) ∧
      (List.lookup "format_24h" doc = none → cfg.format_24h = Config.default.format_24h) ∧
      (List.lookup "show_seconds" doc = none → cfg.show_seconds = Config.default.show_seconds) ∧
      (List.lookup "font_size" doc = none → cfg.font_size = Config.default.font_size) ∧
      (List.lookup "opacity" doc = none → cfg.opacity = Config.default.opacity) ∧
      (List.lookup "hotkey" doc = none → cfg.hotkey = Config.default.hotkey) ∧
      (List.lookup "start_with_windows" doc = none →
        cfg.start_with_windows = Config.default.start_with_windows) ∧
      (List.lookup "text_style" doc = none → cfg.text_style = Config.default.text_style) ∧
      (List.lookup "text_color" doc = none → cfg.text_color = Config.default.text_color) ∧
      (List.lookup "outline_color" doc = none →
        cfg.outline_color = Config.default.outline_color)) ∧
    (∀ doc cfg, decodeConfig doc = some cfg →
      (cfg.opacity < 25 → (load_from (LoadSource.parsed doc)).opacity = 25) ∧
      (100 < cfg.opacity → (load_from (LoadSource.parsed doc)).opacity = 100) ∧
      (25 ≤ cfg.opacity → cfg.opacity ≤ 100 →
        (load_from (LoadSource.parsed doc)).opacity = cfg.opacity) ∧
      (cfg.font_size < 10 → (load_from (LoadSource.parsed doc)).font_size = 10) ∧
      (60 < cfg.font_size → (load_from (LoadSource.parsed doc)).font_size = 60) ∧
      (10 ≤ cfg.font_size → cfg.font_size ≤ 60 →
        (load_from (LoadSource.parsed doc)).font_size = cfg.font_size)) := by
  refine ⟨?_, rfl, rfl, load_from_parsed_none, ?_, ?_⟩
  · intro source
    obtain ⟨c, hf, ho⟩ := load_from_clamped source
    rw [hf, ho]
    exact ⟨(clampNat_mem _ 10 60 (by omega)).1, (clampNat_mem _ 10 60 (by omega)).2,
           (clampNat_mem _ 25 100 (by omega)).1, (clampNat_mem _ 25 100 (by omega)).2⟩
  · intro doc cfg hdec
    simp only [decodeConfig, Option.bind_eq_some, Option.some.injEq] at hdec
    obtain ⟨p, hp, f, hf, s, hs, fs, hfs, op, hop, hk, hhk, sw, hsw, ts, hts,
            tc, htc, oc, hoc, hcfg⟩ := hdec
    subst hcfg
    refine ⟨fun hn => ?_, fun hn => ?_, fun hn => ?_, fun hn => ?_, fun hn => ?_,
            fun hn => ?_, fun hn => ?_, fun hn => ?_, fun hn => ?_, fun hn => ?_⟩
    · rw [decodeField_of_lookup_none _ _ _ _ hn] at hp
      exact (Option.some.inj hp).symm
    · rw [decodeField_of_lookup_none _ _ _ _ hn] at hf
      exact (Option.some.inj hf).symm
    · rw [decodeField_of_lookup_none _ _ _ _ hn] at hs
      exact (Option.some.inj hs).symm
    · rw [decodeField_of_lookup_none _ _ _ _ hn] at hfs
      exact (Option.some.inj hfs).symm
    · rw [decodeField_of_lookup_none _ _ _ _ hn] at hop
      exact (Option.some.inj hop).symm
    · rw [decodeField_of_lookup_none _ _ _ _ hn] at hhk
      exact (Option.some.inj hhk).symm
    · rw [decodeField_of_lookup_none _ _ _ _ hn] at hsw
      exact (Option.some.inj hsw).symm
    · rw [decodeField_of_lookup_none _ _ _ _ hn] at hts
      exact (Option.some.inj hts).symm
    · rw [decodeField_of_lookup_none _ _ _ _ hn] at htc
      exact (Option.some.inj htc).symm
    · rw [decodeField_of_lookup_none _ _ _ _ hn] at hoc
      exact (Option.some.inj hoc).symm
  · intro doc cfg hdec
    have hload : load_from (LoadSource.parsed doc) =
        { cfg with
          opacity := clampNat cfg.opacity 25 100
          font_size := clampNat cfg.font_size 10 60 } := by
      rw [load_from_parsed_eq, hdec]
      rfl
    refine ⟨fun h => ?_, fun h => ?_, fun h1 h2 => ?_, fun h => ?_, fun h => ?_,
            fun h1 h2 => ?_⟩ <;> rw [hload]
    · exact clampNat_below _ _ _ h
    · exact clampNat_above _ _ _ (by omega) h
    · exact clampNat_id _ _ _ h1 h2
    · exact clampNat_below _ _ _ h
    · exact clampNat_above _ _ _ (by omega) h
    · exact clampNat_id _ _ _ h1 h2

/-- Witness for C1 at concrete inputs: an out-of-range opacity is clamped
up to 25; an undecodable document loads as the default; a document missing
`font_size` keeps the default 22. -/
theorem C1_load_fails_safe_witness :
    (25 ≤ (load_from (LoadSource.parsed [("opacity", TomlValue.int 5)])).opacity) ∧
    (decodeConfig [("font_size", TomlValue.bool true)] = none ∧
      load_from (LoadSource.parsed [("font_size", TomlValue.bool true)]) = Config.default) ∧
    (decodeConfig [("opacity", TomlValue.int 50)] =
        some { Config.default with opacity := 50 } ∧
      List.lookup "font_size" [("opacity", TomlValue.int 50)] = none ∧
      ({ Config.default with opacity := 50 } : Config).font_size =
        Config.default.font_size) :=
  ⟨(C1_load_fails_safe.1 (LoadSource.parsed [("opacity", TomlValue.int 5)])).2.2.1,
   ⟨by decide, C1_load_fails_safe.2.2.2.1 _ (by decide)⟩,
   ⟨by decide, rfl,
    ((C1_load_fails_safe.2.2.2.2.1 [("opacity", TomlValue.int 50)]
        { Config.default with opacity := 50 } (by decide)).2.2.2.1) rfl⟩⟩

/-- C7: `deserialize_font_size` accepts either a `u32` number (taken as
is) or one of the legacy strings small/medium/large mapped to 16/22/30 in
the same numeric field; loading a file whose only key is
`font_size = "large"` yields font size 30 with every other field at its
default. -/
theorem C7_legacy_font_size :
    (∀ n : Nat, n < 2 ^ 32 → deserialize_font_size (TomlValue.int (n : Int)) = some n) ∧
    deserialize_font_size (TomlValue.str "small".toList) = some 16 ∧
    deserialize_font_size (TomlValue.str "medium".toList) = some 22 ∧
    deserialize_font_size (TomlValue.str "large".toList) = some 30 ∧
    load_from (LoadSource.parsed [("font_size", TomlValue.str "large".toList)]) =
      { Config.default with font_size := 30 } := by
  refine ⟨?_, by decide, by decide, by decide, by decide⟩
  intro n hn
  have h0 : (0 : Int) ≤ (n : Int) := Int.natCast_nonneg n
  have h1 : ((n : Int)) < 2 ^ 32 := by exact_mod_cast hn
  simp [deserialize_font_size, h0, h1]
  omega

/-- Witness for C7 at the numeric font size 40. -/
theorem C7_legacy_font_size_witness :
    (40 : Nat) < 2 ^ 32 ∧
      deserialize_font_size (TomlValue.int ((40 : Nat) : Int)) = some 40 :=
  ⟨by decide, C7_legacy_font_size.1 40 (by decide)⟩

/-- C9: a structurally valid document with any invalid present field is
discarded wholesale — `load_from` returns `Config::default()`, resetting
even the fields that were valid — unlike a missing field, which defaults
individually.  Shown for an unknown legacy font-size string (`"tiny"`,
alongside a valid non-default `position`) and an opacity outside the `u8`
range (300). -/
theorem C9_invalid_field_discards_file :
    (∀ doc, decodeConfig doc = none →
      load_from (LoadSource.parsed doc) = Config.default) ∧
    decodeConfig [("position", TomlValue.str "bottom-left".toList),
                  ("font_size", TomlValue.str "tiny".toList)] = none ∧
    load_from (LoadSource.parsed
        [("position", TomlValue.str "bottom-left".toList),
         ("font_size", TomlValue.str "tiny".toList)]) = Config.default ∧
    decodeConfig [("opacity", TomlValue.int 300)] = none ∧
    load_from (LoadSource.parsed [("opacity", TomlValue.int 300)]) = Config.default ∧
    load_from (LoadSource.parsed [("position", TomlValue.str "bottom-left".toList)]) =
      { Config.default with position := Position.bottomLeft } :=
  ⟨load_from_parsed_none, by decide, by decide, by decide, by decide, by decide⟩

/-- Witness for C9: a document whose `font_size` holds a boolean decodes
to nothing, so the whole file loads as the default config. -/
theorem C9_invalid_field_discards_file_witness :
    decodeConfig [("show_seconds", TomlValue.bool true),
                  ("font_size", TomlValue.str "huge".toList)] = none ∧
    load_from (LoadSource.parsed
        [("show_seconds", TomlValue.bool true),
         ("font_size", TomlValue.str "huge".toList)]) = Config.default :=
  ⟨by decide, C9_invalid_field_discards_file.1 _ (by decide)⟩

theorem char_eq_iff_toNat (a b : Char) : a = b ↔ a.toNat = b.toNat :=
  ⟨fun h => h ▸ rfl, fun h => Char.eq_of_val_eq (UInt32.ext h)⟩

theorem toNat_ascii_lower (c : Char) :
    (ascii_lower c).toNat =
      if 65 ≤ c.toNat ∧ c.toNat ≤ 90 then c.toNat + 32 else c.toNat := by
  unfold ascii_lower
  by_cases h : 'A' ≤ c ∧ c ≤ 'Z'
  · have h1 : 65 ≤ c.toNat := h.1
    have h2 : c.toNat ≤ 90 := h.2
    rw [if_pos h, if_pos ⟨h1, h2⟩]
    have hv : Nat.isValidChar (c.toNat + 32) := Or.inl (by omega)
    unfold Char.ofNat
    split
    · rfl
    · next h3 => exact absurd hv h3
  · have h2 : ¬(65 ≤ c.toNat ∧ c.toNat ≤ 90) := fun hc => h ⟨hc.1, hc.2⟩
    rw [if_neg h, if_neg h2]

theorem ascii_lower_idem (c : Char) :
    ascii_lower (ascii_lower c) = ascii_lower c := by
  rw [char_eq_iff_toNat, toNat_ascii_lower (ascii_lower c), toNat_ascii_lower c]
  split_ifs <;> omega

theorem ascii_lower_eq_plus {c : Char} : ascii_lower c = '+' ↔ c = '+' := by
  rw [char_eq_iff_toNat, char_eq_iff_toNat, toNat_ascii_lower,
      show ('+' : Char).toNat = 43 from rfl]
  split_ifs <;> omega

theorem rust_ws_lower (c : Char) :
    rust_is_whitespace (ascii_lower c) = rust_is_whitespace c := by
  by_cases h : 65 ≤ c.toNat ∧ c.toNat ≤ 90
  · have ht : (ascii_lower c).toNat = c.toNat + 32 := by
      rw [toNat_ascii_lower, if_pos h]
    rw [Bool.eq_iff_iff]
    simp only [rust_is_whitespace, Bool.or_eq_true, decide_eq_true_eq,
      char_eq_iff_toNat, ht,
      show ('\u0009' : Char).toNat = 0x09 from rfl,
      show ('\u000A' : Char).toNat = 0x0A from rfl,
      show ('\u000B' : Char).toNat = 0x0B from rfl,
      show ('\u000C' : Char).toNat = 0x0C from rfl,
      show ('\u000D' : Char).toNat = 0x0D from rfl,
      show (' ' : Char).toNat = 0x20 from rfl,
      show ('\u0085' : Char).toNat = 0x85 from rfl,
      show ('\u00A0' : Char).toNat = 0xA0 from rfl,
      show ('\u1680' : Char).toNat = 0x1680 from rfl,
      show ('\u2000' : Char).toNat = 0x2000 from rfl,
      show ('\u2001' : Char).toNat = 0x2001 from rfl,
      show ('\u2002' : Char).toNat = 0x2002 from rfl,
      show ('\u2003' : Char).toNat = 0x2003 from rfl,
      show ('\u2004' : Char).toNat = 0x2004 from rfl,
      show ('\u2005' : Char).toNat = 0x2005 from rfl,
      show ('\u2006' : Char).toNat = 0x2006 from rfl,
      show ('\u2007' : Char).toNat = 0x2007 from rfl,
      show ('\u2008' : Char).toNat = 0x2008 from rfl,
      show ('\u2009' : Char).toNat = 0x2009 from rfl,
      show ('\u200A' : Char).toNat = 0x200A from rfl,
      show ('\u2028' : Char).toNat = 0x2028 from rfl,
      show ('\u2029' : Char).toNat = 0x2029 from rfl,
      show ('\u202F' : Char).toNat = 0x202F from rfl,
      show ('\u205F' : Char).toNat = 0x205F from rfl,
      show ('　' : Char).toNat = 0x3000 from rfl]
    omega
  · have ht : ascii_lower c = c := by
      rw [char_eq_iff_toNat, toNat_ascii_lower, if_neg h]
    rw [ht]

theorem trim_chars_map_lower (s : List Char) :
    trim_chars (s.map ascii_lower) = (trim_chars s).map ascii_lower := by
  unfold trim_chars
  have hfun : (rust_is_whitespace ∘ ascii_lower) = rust_is_whitespace :=
    funext rust_ws_lower
  rw [List.dropWhile_map, hfun, ← List.map_reverse, List.dropWhile_map, hfun,
      ← List.map_reverse]

theorem split_plus_ne_nil (s : List Char) : split_plus s ≠ [] := by
  cases s with
  | nil => simp [split_plus]
  | cons c rest =>
    unfold split_plus
    by_cases h : c = '+'
    · simp [h]
    · simp only [h, if_false]
      cases hsp : split_plus rest <;> simp

theorem split_plus_map_lower (s : List Char) :
    split_plus (s.map ascii_lower) = (split_plus s).map (List.map ascii_lower) := by
  induction s with
  | nil => rfl
  | cons c rest ih =>
    by_cases h : c = '+'
    · subst h
      simp [split_plus, show ascii_lower '+' = '+' from rfl, ih]
    · have h2 : ascii_lower c ≠ '+' := fun hh => h (ascii_lower_eq_plus.mp hh)
      simp only [List.map_cons]
      unfold split_plus
      rw [if_neg h2, if_neg h, ih]
      cases hsp : split_plus rest with
      | nil => exact absurd hsp (split_plus_ne_nil rest)
      | cons p ps => simp

theorem join_plus_map_lower (parts : List (List Char)) :
    join_plus (parts.map (List.map ascii_lower)) =
      (join_plus parts).map ascii_lower := by
  induction parts with
  | nil => rfl
  | cons p ps ih =>
    cases ps with
    | nil => rfl
    | cons q qs =>
      have hj : join_plus (p :: q :: qs) = p ++ '+' :: join_plus (q :: qs) := rfl
      have hj2 : join_plus (List.map (List.map ascii_lower) (p :: q :: qs)) =
          List.map ascii_lower p ++
            '+' :: join_plus (List.map (List.map ascii_lower) (q :: qs)) := rfl
      rw [hj, hj2, ih]
      simp [show ascii_lower '+' = '+' from rfl]

theorem eq_ignore_map_lower (a b : List Char) :
    eq_ignore_ascii_case a (b.map ascii_lower) = eq_ignore_ascii_case a b := by
  unfold eq_ignore_ascii_case
  rw [List.map_map, show (ascii_lower ∘ ascii_lower) = ascii_lower from
    funext ascii_lower_idem]

theorem lookup_ci_map_lower (table : List (List Char × Nat)) (tok : List Char) :
    lookup_ci table (tok.map ascii_lower) = lookup_ci table tok := by
  unfold lookup_ci
  rw [show (fun e : List Char × Nat => eq_ignore_ascii_case e.1 (tok.map ascii_lower)) =
      (fun e : List Char × Nat => eq_ignore_ascii_case e.1 tok) from
    funext fun e => eq_ignore_map_lower e.1 tok]

theorem dropLast_map {α β : Type} (f : α → β) (l : List α) :
    (l.map f).dropLast = l.dropLast.map f := by
  induction l with
  | nil => rfl
  | cons a t ih =>
    cases t with
    | nil => rfl
    | cons b u => simpa using ih

theorem parse_hotkey_map_lower (s : List Char) :
    parse_hotkey (s.map ascii_lower) = parse_hotkey s := by
  unfold parse_hotkey
  dsimp only
  rw [split_plus_map_lower, List.map_map,
      show (trim_chars ∘ List.map ascii_lower) =
        (List.map ascii_lower ∘ trim_chars) from funext trim_chars_map_lower,
      ← List.map_map, List.length_map]
  by_cases hlen : ((split_plus s).map trim_chars).length < 2
  · rw [if_pos hlen, if_pos hlen]
  · rw [if_neg hlen, if_neg hlen, List.getLast?_map]
    cases hlast : ((split_plus s).map trim_chars).getLast? with
    | none => rfl
    | some key =>
      dsimp only [Option.map_some']
      rw [lookup_ci_map_lower]
      cases hk : lookup_ci KEY_OPTIONS key with
      | none => rfl
      | some vk =>
        dsimp only
        rw [dropLast_map, join_plus_map_lower, lookup_ci_map_lower]

/-- C6: hotkey codec round-trip.  (1) For every (modifier, key) entry pair
of `MODIFIER_OPTIONS` × `KEY_OPTIONS`, formatting as
`"<modifierName>+<keyName>"` (`build_hotkey_string`) and parsing returns
exactly that (modifier mask, key code) pair.  (2) Any two strings equal up
to ASCII case parse identically, so every case variant of a table string
parses to the same pair.  (3) A string whose trimmed `'+'`-split has fewer
than two tokens, or whose last token is not a key-table name, or whose
preceding tokens rejoined with `'+'` are not a modifier-table name, parses
to `none`. -/
theorem C6_parse_hotkey_roundtrip :
    (∀ mk ∈ MODIFIER_OPTIONS, ∀ kk ∈ KEY_OPTIONS,
      parse_hotkey (build_hotkey_string mk.1 kk.1) = some (mk.2, kk.2)) ∧
    (∀ s t : List Char, s.map ascii_lower = t.map ascii_lower →
      parse_hotkey s = parse_hotkey t) ∧
    (∀ s : List Char,
      (((split_plus s).map trim_chars).length < 2 ∨
        (∃ k, ((split_plus s).map trim_chars).getLast? = some k ∧
          lookup_ci KEY_OPTIONS k = none) ∨
        lookup_ci MODIFIER_OPTIONS
          (join_plus ((split_plus s).map trim_chars).dropLast) = none) →
      parse_hotkey s = none) := by
  refine ⟨by decide, ?_, ?_⟩
  · intro s t h
    rw [← parse_hotkey_map_lower s, h, parse_hotkey_map_lower]
  · intro s h
    unfold parse_hotkey
    dsimp only
    by_cases hlen : ((split_plus s).map trim_chars).length < 2
    · rw [if_pos hlen]
    · rw [if_neg hlen]
      rcases h with h | ⟨k, hk, hlk⟩ | h
      · exact absurd h hlen
      · rw [hk]
        dsimp only
        rw [hlk]
      · cases hlast : ((split_plus s).map trim_chars).getLast? with
        | none => rfl
        | some k2 =>
          dsimp only
          cases hk2 : lookup_ci KEY_OPTIONS k2 with
          | none => rfl
          | some vk =>
            dsimp only
            rw [h]

/-- Witness for C6 at concrete strings: "Ctrl+F12" formats and parses to
(MOD_CONTROL, VK_F12); "ctrl+f12" parses like "Ctrl+F12"; the single
token "F12" parses to nothing. -/
theorem C6_parse_hotkey_roundtrip_witness :
    parse_hotkey (build_hotkey_string "Ctrl".toList "F12".toList) =
      some (MOD_CONTROL, 0x7B) ∧
    parse_hotkey "ctrl+f12".toList = parse_hotkey "Ctrl+F12".toList ∧
    parse_hotkey "F12".toList = none :=
  ⟨C6_parse_hotkey_roundtrip.1 ("Ctrl".toList, MOD_CONTROL) (by decide)
      ("F12".toList, 0x7B) (by decide),
   C6_parse_hotkey_roundtrip.2.1 "ctrl+f12".toList "Ctrl+F12".toList (by decide),
   C6_parse_hotkey_roundtrip.2.2 "F12".toList (Or.inl (by decide))⟩

end ClockOR
